import Mathlib

/-
  Verification of errcheck.h — fail-fast error handling macros for embedded C.

  Shallow embedding. Error codes (err_t, a uint8) are modelled as Nat; the
  raw outcome of a fallible call (a C int) is modelled as Int, with 0 the
  failure value.  A macro that may `return ERR_FAILURE;` from the enclosing
  function is modelled as a function producing the new global state together
  with `Option Nat`: `some r` means the enclosing operation returned `r`
  at this statement, `none` means control fell through to the next statement.
  A sequence of statements in an enclosing operation is run by a small
  interpreter that also records, in program order, the raw outcomes it
  actually evaluated, so that "this call's outcome is never evaluated" is
  expressible.
-/

namespace Errcheck

/-- FailureSentinel: `#define ERR_FAILURE ((err_t)0xFF)` from errcheck.h. -/
def ERR_FAILURE : Nat := 0xFF

/-- The success / "no error" code: `ERR_NONE = 0` in every example file. -/
def ERR_NONE : Nat := 0

/-- Plain-build `CHECK(call, err_flag)` from errcheck.h:
    `if ((call) == 0) { g_last_error = (err_flag); return ERR_FAILURE; }`.
    Input: the evaluated raw outcome, the site error code, and the current
    value of `g_last_error`.  Output: the new `g_last_error` and `some
    ERR_FAILURE` when the enclosing operation returns here, `none` when
    control falls through. -/
def CHECK (call : Int) (err_flag : Nat) (g_last_error : Nat) : Nat × Option Nat :=
  if call = 0 then (err_flag, some ERR_FAILURE) else (g_last_error, none)

/-- The globals of a plain (non-injection) build: `g_last_error` and the
    consumer-defined `g_current_error_group` read by `CHECK_SAME`. -/
structure GrpSt where
  g_last_error : Nat
  g_current_error_group : Nat
deriving DecidableEq, Repr

/-- `#define CHECK_SAME(call) CHECK((call), g_current_error_group)` from
    errcheck.h. -/
def CHECK_SAME (call : Int) (s : GrpSt) : Nat × Option Nat :=
  CHECK call s.g_current_error_group s.g_last_error

/-- `RETURN_ERR(err_flag)` from errcheck.h:
    `g_last_error = (err_flag); return ERR_FAILURE;` unconditionally. -/
def RETURN_ERR (err_flag : Nat) : Nat × Option Nat :=
  (err_flag, some ERR_FAILURE)

/-- One statement of an enclosing operation in a plain build: a `CHECK` with
    the raw outcome its call will produce and its site code, a `CHECK_SAME`
    with the raw outcome its call will produce, or a `RETURN_ERR`. -/
inductive Stmt where
  | check : Int → Nat → Stmt
  | checkSame : Int → Stmt
  | returnErr : Nat → Stmt
deriving DecidableEq, Repr

/-- Result of running the statements of an enclosing operation: final
    globals, `some r` when the operation returned `r` early (`none` when it
    fell through all statements), and the raw call outcomes that were
    actually evaluated, in program order. -/
structure RunOut where
  st : GrpSt
  ret : Option Nat
  evaluated : List Int
deriving DecidableEq, Repr

/-- Run the statements of an enclosing operation in program order, stopping
    at the first statement that returns.  Each `check`/`checkSame` statement
    evaluates its call's raw outcome exactly once, recorded in `evaluated`;
    statements after an early return are never reached. -/
def runStmts (s : GrpSt) : List Stmt → RunOut
  | [] => ⟨s, none, []⟩
  | Stmt.check call e :: rest =>
      let c := CHECK call e s.g_last_error
      match c.2 with
      | some r => ⟨⟨c.1, s.g_current_error_group⟩, some r, [call]⟩
      | none =>
          let o := runStmts ⟨c.1, s.g_current_error_group⟩ rest
          ⟨o.st, o.ret, call :: o.evaluated⟩
  | Stmt.checkSame call :: rest =>
      let c := CHECK_SAME call s
      match c.2 with
      | some r => ⟨⟨c.1, s.g_current_error_group⟩, some r, [call]⟩
      | none =>
          let o := runStmts ⟨c.1, s.g_current_error_group⟩ rest
          ⟨o.st, o.ret, call :: o.evaluated⟩
  | Stmt.returnErr e :: _ =>
      let c := RETURN_ERR e
      ⟨⟨c.1, s.g_current_error_group⟩, c.2, []⟩

/-- The globals of a build with `ERRCHECK_ENABLE_RUNTIME_INJECTION`:
    `g_last_error` and the injection trigger `g_inject_error_flag`
    (a uint8, `0` = unarmed). -/
structure InjSt where
  g_last_error : Nat
  g_inject_error_flag : Nat
deriving DecidableEq, Repr

/-- The redefined `CHECK(call, err_flag)` compiled when
    `ERRCHECK_ENABLE_RUNTIME_INJECTION` is defined (errcheck.h):
    `if ((call) == 0 || g_inject_error_flag == (err_flag)) {
       g_last_error = (err_flag); g_inject_error_flag = 0;
       return ERR_FAILURE; }`. -/
def CHECK_RI (call : Int) (err_flag : Nat) (s : InjSt) : InjSt × Option Nat :=
  if call = 0 ∨ s.g_inject_error_flag = err_flag then
    (⟨err_flag, 0⟩, some ERR_FAILURE)
  else (s, none)

/-- Result of running a sequence of injection-build checked calls. -/
structure InjOut where
  st : InjSt
  ret : Option Nat
  evaluated : List Int
deriving DecidableEq, Repr

/-- Run a sequence of injection-build checked calls, each given as (raw
    outcome, site error code), in program order, stopping at the first that
    returns; `evaluated` records the raw outcomes actually evaluated. The
    real call is evaluated before the combined test, exactly once, whether
    or not the trigger is armed. -/
def runChecksRI (s : InjSt) : List (Int × Nat) → InjOut
  | [] => ⟨s, none, []⟩
  | (call, e) :: rest =>
      let c := CHECK_RI call e s
      match c.2 with
      | some r => ⟨c.1, some r, [call]⟩
      | none =>
          let o := runChecksRI c.1 rest
          ⟨o.st, o.ret, call :: o.evaluated⟩

/-- `ERR_SENSOR = 1` from examples/fault_injection_compile_time.c. -/
def ERR_SENSOR : Nat := 1

/-- `CHECK_SENSOR(call)` from examples/fault_injection_compile_time.c, with
    the build-time flag `INJECT_ERR_SENSOR` made explicit as a Bool:
    with the flag, `CHECK(0, ERR_SENSOR)` (the real evaluation is statically
    replaced by the constant failure outcome 0); without it,
    `CHECK(call, ERR_SENSOR)`. -/
def CHECK_SENSOR (inject : Bool) (call : Int) (g_last_error : Nat) : Nat × Option Nat :=
  if inject then CHECK 0 ERR_SENSOR g_last_error else CHECK call ERR_SENSOR g_last_error

/-- C1: in a plain build, a checked call whose real outcome is 0 with site
    code `e ≠ NONE` writes `e` into `g_last_error` and immediately returns
    `ERR_FAILURE` from the enclosing operation: whatever statements follow,
    the run ends here with result `ERR_FAILURE`, `g_last_error = e`, and only
    this call's outcome evaluated. -/
theorem check_real_failure_sets_slot_and_returns
    (e l g : Nat) (rest : List Stmt) (h : e ≠ ERR_NONE) :
    CHECK 0 e l = (e, some ERR_FAILURE) ∧
    runStmts ⟨l, g⟩ (Stmt.check 0 e :: rest) =
      ⟨⟨e, g⟩, some ERR_FAILURE, [0]⟩ := by
  refine ⟨rfl, ?_⟩
  simp [runStmts, CHECK]

/-- C1 witness: instantiated at `e = 3`, nonempty tail. -/
theorem check_real_failure_sets_slot_and_returns_w :
    runStmts ⟨0, 0⟩ [Stmt.check 0 3, Stmt.check 1 2] =
      ⟨⟨3, 0⟩, some ERR_FAILURE, [0]⟩ :=
  (check_real_failure_sets_slot_and_returns 3 0 0 [Stmt.check 1 2] (by decide)).2

/-- C2: program order and first-failure dominance in a plain build.  If the
    first checked call fails with code `A`, the run returns `ERR_FAILURE`
    with `g_last_error = A`; the second call's outcome `o2` is never
    evaluated (the trace is `[0]` and the output does not mention `o2`, `B`,
    or the tail); when `A ≠ B`, `g_last_error ≠ B`; and the whole run after
    a first failure is independent of everything that follows. -/
theorem first_failure_dominates
    (A B l g : Nat) (o2 : Int) (rest rest2 : List Stmt) :
    runStmts ⟨l, g⟩ (Stmt.check 0 A :: Stmt.check o2 B :: rest) =
      ⟨⟨A, g⟩, some ERR_FAILURE, [0]⟩ ∧
    (A ≠ B →
      (runStmts ⟨l, g⟩ (Stmt.check 0 A :: Stmt.check o2 B :: rest)).st.g_last_error ≠ B) ∧
    runStmts ⟨l, g⟩ (Stmt.check 0 A :: rest) =
      runStmts ⟨l, g⟩ (Stmt.check 0 A :: rest2) := by
  refine ⟨by simp [runStmts, CHECK], ?_, by simp [runStmts, CHECK]⟩
  intro hAB
  simp [runStmts, CHECK]
  exact hAB

/-- C2 witness: codes A = 1 then B = 2, both calls would really fail. -/
theorem first_failure_dominates_w :
    (runStmts ⟨0, 0⟩ [Stmt.check 0 1, Stmt.check 0 2]).st.g_last_error ≠ 2 :=
  (first_failure_dominates 1 2 0 0 0 [] []).2.1 (by decide)

/-- C5: a plain-build checked call treats only an exact zero outcome as
    failure: for any nonzero outcome the call succeeds, `g_last_error` is
    not written at this site, the enclosing operation does not exit early
    here, and control falls through to the remaining statements with the
    globals unchanged. -/
theorem check_nonzero_is_success
    (call : Int) (e l g : Nat) (rest : List Stmt) (h : call ≠ 0) :
    CHECK call e l = (l, none) ∧
    runStmts ⟨l, g⟩ (Stmt.check call e :: rest) =
      ⟨(runStmts ⟨l, g⟩ rest).st, (runStmts ⟨l, g⟩ rest).ret,
       call :: (runStmts ⟨l, g⟩ rest).evaluated⟩ := by
  constructor
  · simp [CHECK, h]
  · simp [runStmts, CHECK, h]

/-- C5 witness: outcome `-7` (nonzero, negative) is a success. -/
theorem check_nonzero_is_success_w :
    CHECK (-7) 1 0 = (0, none) :=
  (check_nonzero_is_success (-7) 1 0 0 [] (by decide)).1

/-- C6: `CHECK_SAME` is `CHECK` with its code read from
    `g_current_error_group`; with group `G` and three grouped calls of
    which only the second fails, the enclosing operation returns
    `ERR_FAILURE`, `g_last_error = G`, and the third call's outcome is never
    evaluated. -/
theorem check_same_group_scenario
    (G l : Nat) (o1 o3 : Int) (h1 : o1 ≠ 0) :
    (∀ (call : Int) (s : GrpSt),
      CHECK_SAME call s = CHECK call s.g_current_error_group s.g_last_error) ∧
    runStmts ⟨l, G⟩ [Stmt.checkSame o1, Stmt.checkSame 0, Stmt.checkSame o3] =
      ⟨⟨G, G⟩, some ERR_FAILURE, [o1, 0]⟩ := by
  refine ⟨fun call s => rfl, ?_⟩
  simp [runStmts, CHECK_SAME, CHECK, h1]

/-- C6 witness: group 4, outcomes 9, 0, 7. -/
theorem check_same_group_scenario_w :
    runStmts ⟨0, 4⟩ [Stmt.checkSame 9, Stmt.checkSame 0, Stmt.checkSame 7] =
      ⟨⟨4, 4⟩, some ERR_FAILURE, [9, 0]⟩ :=
  (check_same_group_scenario 4 0 9 7 (by decide)).2

/-- C7: with the `INJECT_ERR_SENSOR` flag the tagged call site always
    yields `ERR_FAILURE` with `g_last_error = ERR_SENSOR` and its result is
    independent of the real outcome; without the flag it is exactly the
    unmodified `CHECK` protocol at that site. -/
theorem check_sensor_compile_time_injection (o o2 : Int) (l : Nat) :
    CHECK_SENSOR true o l = (ERR_SENSOR, some ERR_FAILURE) ∧
    CHECK_SENSOR true o l = CHECK_SENSOR true o2 l ∧
    CHECK_SENSOR false o l = CHECK o ERR_SENSOR l := by
  refine ⟨?_, rfl, rfl⟩
  simp [CHECK_SENSOR, CHECK]

/-- C8: `RETURN_ERR e` unconditionally writes `e` into `g_last_error` and
    returns `ERR_FAILURE`; in an enclosing operation no further statement
    executes and no call outcome is evaluated. -/
theorem return_err_unconditional (e l g : Nat) (rest : List Stmt) :
    RETURN_ERR e = (e, some ERR_FAILURE) ∧
    runStmts ⟨l, g⟩ (Stmt.returnErr e :: rest) =
      ⟨⟨e, g⟩, some ERR_FAILURE, []⟩ :=
  ⟨rfl, rfl⟩

/-- C3: in an injection build the failure test of a checked call is exactly
    `call = 0 ∨ g_inject_error_flag = err_flag`; when it holds the call sets
    `g_last_error` to its code, resets the trigger to 0, and returns
    `ERR_FAILURE`; when it fails the globals are untouched and control falls
    through; and the real outcome is evaluated exactly once (the trace of a
    single checked call is `[call]`) whether or not the trigger is armed. -/
theorem check_ri_failure_test
    (call : Int) (e : Nat) (s : InjSt) :
    ((CHECK_RI call e s).2 = some ERR_FAILURE ↔
      (call = 0 ∨ s.g_inject_error_flag = e)) ∧
    ((call = 0 ∨ s.g_inject_error_flag = e) →
      CHECK_RI call e s = (⟨e, 0⟩, some ERR_FAILURE)) ∧
    (¬(call = 0 ∨ s.g_inject_error_flag = e) → CHECK_RI call e s = (s, none)) ∧
    (runChecksRI s [(call, e)]).evaluated = [call] := by
  by_cases h : call = 0 ∨ s.g_inject_error_flag = e
  · refine ⟨?_, fun _ => ?_, fun hn => absurd h hn, ?_⟩
    · simp [CHECK_RI, h]
    · simp [CHECK_RI, h]
    · simp [runChecksRI, CHECK_RI, h]
  · refine ⟨?_, fun hp => absurd hp h, fun _ => ?_, ?_⟩
    · simp [CHECK_RI, h]
    · simp [CHECK_RI, h]
    · simp [runChecksRI, CHECK_RI, h]

/-- C3 witness: trigger armed with 2, real outcome 1 (success): the call
    fails, records 2, and consumes the trigger. -/
theorem check_ri_failure_test_w :
    CHECK_RI 1 2 ⟨0, 2⟩ = (⟨2, 0⟩, some ERR_FAILURE) :=
  (check_ri_failure_test 1 2 ⟨0, 2⟩).2.1 (Or.inr rfl)

/-- C4 counterexample: arming the trigger with X = 1 does affect a checked
    call whose code is Y = 0 ≠ X when its real outcome is 1 (success): with
    the trigger unarmed that call takes the failure branch (the unarmed
    value 0 compares equal to the code 0), while armed with 1 it passes —
    so the claim's "arming X does not affect a call whose code is Y ≠ X"
    fails at Y = NONE. -/
theorem arming_affects_code_none_call :
    (CHECK_RI 1 0 ⟨0, 0⟩).2 = some ERR_FAILURE ∧
    (CHECK_RI 1 0 ⟨0, 1⟩).2 = none := by decide

/-- C4 (amended with `Y ≠ NONE`): arming the trigger with `X ≠ NONE` forces
    a checked call with code `X` to fail regardless of its real outcome,
    consuming the trigger at that instant; a second call with code `X`,
    with no re-arming, fails exactly when its real outcome is 0 and passes
    untouched otherwise; and for a call whose code is `Y ∉ {X, NONE}` the
    armed and unarmed runs agree on the result and on `g_last_error`, the
    decision is the real outcome alone, and the call's effect on the trigger
    is the same clear-on-real-failure, keep-otherwise rule. -/
theorem runtime_injection_fires_exactly_once
    (X Y l : Nat) (o o2 : Int)
    (hX : X ≠ ERR_NONE) (hYX : Y ≠ X) (hY : Y ≠ ERR_NONE) :
    CHECK_RI o X ⟨l, X⟩ = (⟨X, 0⟩, some ERR_FAILURE) ∧
    ((CHECK_RI o2 X ⟨X, 0⟩).2 = some ERR_FAILURE ↔ o2 = 0) ∧
    (o2 ≠ 0 → CHECK_RI o2 X ⟨X, 0⟩ = (⟨X, 0⟩, none)) ∧
    (CHECK_RI o Y ⟨l, X⟩).2 = (CHECK_RI o Y ⟨l, ERR_NONE⟩).2 ∧
    (CHECK_RI o Y ⟨l, X⟩).1.g_last_error =
      (CHECK_RI o Y ⟨l, ERR_NONE⟩).1.g_last_error ∧
    ((CHECK_RI o Y ⟨l, X⟩).2 = some ERR_FAILURE ↔ o = 0) ∧
    (CHECK_RI o Y ⟨l, X⟩).1.g_inject_error_flag = (if o = 0 then 0 else X) := by
  have hXY : ¬(X = Y) := fun hxy => hYX hxy.symm
  have hY0 : ¬((0 : Nat) = Y) := fun h0y => hY h0y.symm
  have hX0 : ¬((0 : Nat) = X) := fun h0x => hX h0x.symm
  refine ⟨by simp [CHECK_RI], ?_, ?_, ?_, ?_, ?_, ?_⟩
  · by_cases h2 : o2 = 0 <;> simp [CHECK_RI, hX0, h2]
  · intro h2
    simp [CHECK_RI, hX0, h2]
  · by_cases ho : o = 0 <;> simp [CHECK_RI, ERR_NONE, hXY, hY0, ho]
  · by_cases ho : o = 0 <;> simp [CHECK_RI, ERR_NONE, hXY, hY0, ho]
  · by_cases ho : o = 0 <;> simp [CHECK_RI, hXY, ho]
  · by_cases ho : o = 0 <;> simp [CHECK_RI, hXY, ho]

/-- C4 witness: X = 1, Y = 2, real outcomes 5 and 7. -/
theorem runtime_injection_fires_exactly_once_w :
    CHECK_RI 5 1 ⟨0, 1⟩ = (⟨1, 0⟩, some ERR_FAILURE) :=
  (runtime_injection_fires_exactly_once 1 2 0 5 7
    (by decide) (by decide) (by decide)).1

/-- C9: in an injection build every failure branch resets the trigger: a
    trigger armed with `X ≠ NONE` is cleared by a checked call with code
    `Y ≠ X` whose real outcome is 0 — the call fails on its real outcome
    (the injected disjunct `g_inject_error_flag = Y` is false), records `Y`,
    and still sets the trigger to 0, consuming the arming without the
    injection ever forcing a failure. -/
theorem real_failure_clears_armed_trigger
    (X Y l : Nat) (hX : X ≠ ERR_NONE) (hYX : Y ≠ X) :
    CHECK_RI 0 Y ⟨l, X⟩ = (⟨Y, 0⟩, some ERR_FAILURE) ∧
    ¬((⟨l, X⟩ : InjSt).g_inject_error_flag = Y) := by
  refine ⟨by simp [CHECK_RI], ?_⟩
  simpa using fun hxy => hYX hxy.symm

/-- C9 witness: trigger armed with 1, call code 2, real outcome 0. -/
theorem real_failure_clears_armed_trigger_w :
    CHECK_RI 0 2 ⟨7, 1⟩ = (⟨2, 0⟩, some ERR_FAILURE) :=
  (real_failure_clears_armed_trigger 1 2 7 (by decide) (by decide)).1

/-- C10: in an injection build a checked call whose code is `NONE = 0`
    always takes the failure branch when the trigger is unarmed (also 0),
    for every real outcome, including success: `g_last_error` becomes 0 and
    the enclosing operation returns `ERR_FAILURE`. -/
theorem unarmed_trigger_fires_code_none (o : Int) (l : Nat) :
    CHECK_RI o ERR_NONE ⟨l, 0⟩ = (⟨ERR_NONE, 0⟩, some ERR_FAILURE) := by
  simp [CHECK_RI, ERR_NONE]

end Errcheck
